import Mathlib

/-!
Verification of the ClickHouse lambda adapter core
(programs/lambda: LambdaServer.cpp, LambdaCommunucator.h, LambdaTable.cpp).

The development shallowly embeds the cross-thread invocation pipeline:

* `LambdaQuery` / `LambdaResult` mirror the records of LambdaCommunucator.h.
* `Json` with Poco-style accessors (`optValueString`, `getValueString`,
  `getObjectFields`) models the subset of Poco::JSON that
  `parseLambdaRequestPayload` uses; JSON text parsing itself is external
  (Poco's parser), so functions take a parse oracle `jparse : String → Option Json`.
* `parseLambdaRequestPayload`, `encodeResult`, `lambdaHandler` mirror the
  dispatcher side of LambdaServer.cpp (lines 1004-1093).
* `runQueryLoop` mirrors `LambdaServer::runQueryLoop` (lines 481-515) as a
  function of the schedule of channel outcomes the worker observes: the
  successive results of `popQuery` and the successive boolean outcomes of
  `pushResponse`.  The embedded query engine (ClientBase::processQueryText)
  is an oracle `Engine`; the lambda-specific `initOutputFormat`
  (lines 517-549) is embedded directly.  Exception rendering
  (`getExceptionMessage`) is an oracle `wrapExc : String → String`.
-/

namespace ChLambda

/-- Query record, from `struct LambdaQuery` in LambdaCommunucator.h. -/
structure LambdaQuery where
  query_text : String
  output_format : String
  input_format : String
  input_structure : String
  input_data : String
deriving DecidableEq

/-- Result record, from `struct LambdaResult` in LambdaCommunucator.h:
three strings, with a success constructor setting `format`/`data` and an
error constructor setting `error`; the remaining fields default to `""`. -/
structure LambdaResult where
  format : String
  data : String
  error : String
deriving DecidableEq

/-- The `LambdaResult(String format_, String data_)` constructor. -/
def LambdaResult.mkSuccess (format_ data_ : String) : LambdaResult :=
  ⟨format_, data_, ""⟩

/-- The `explicit LambdaResult(String error_)` constructor. -/
def LambdaResult.mkError (error_ : String) : LambdaResult :=
  ⟨"", "", error_⟩

/-- JSON values, as the Poco::JSON parser produces them (numbers are kept as
integers; the payloads at issue carry only strings and objects). -/
inductive Json where
  | null
  | bool (b : Bool)
  | num (n : Int)
  | str (s : String)
  | arr (elems : List Json)
  | obj (fields : List (String × Json))

/-- Minimal JSON string escaping (quote and backslash), standing in for
Poco's stringifier; only non-emptiness of rendered objects matters below. -/
def escapeChar (c : Char) : String :=
  if c = '"' then "\\\"" else if c = '\\' then "\\\\" else String.singleton c

def escapeString (s : String) : String :=
  String.join (s.data.map escapeChar)

mutual

/-- Rendering of a JSON value to text, mirroring what
`Poco::Dynamic::Var::convert<std::string>()` yields for JSON objects and
arrays (Poco's VarHolder for `JSON::Object::Ptr` stringifies the value). -/
def render : Json → String
  | Json.null => "null"
  | Json.bool b => if b then "true" else "false"
  | Json.num n => toString n
  | Json.str s => "\"" ++ escapeString s ++ "\""
  | Json.arr elems => "[" ++ renderElems elems ++ "]"
  | Json.obj fields => "\x7b" ++ renderFields fields ++ "\x7d"

def renderElems : List Json → String
  | [] => ""
  | [j] => render j
  | j :: rest => render j ++ "," ++ renderElems rest

def renderFields : List (String × Json) → String
  | [] => ""
  | [(k, j)] => "\"" ++ escapeString k ++ "\":" ++ render j
  | (k, j) :: rest => "\"" ++ escapeString k ++ "\":" ++ render j ++ "," ++ renderFields rest

end

/-- Lookup of a key in a JSON object's field list (Poco keeps objects as a
map, so a parsed object has no duplicate keys; first match is taken). -/
def lookupField : List (String × Json) → String → Option Json
  | [], _ => none
  | (k, v) :: rest, key => if k = key then some v else lookupField rest key

/-- The conversion `Poco::Dynamic::Var::convert<std::string>()`: strings pass
through, numbers and booleans print, objects and arrays stringify, and a JSON
null (an empty Var) cannot be converted. -/
def varConvertString : Json → Option String
  | Json.null => none
  | Json.bool b => some (if b then "true" else "false")
  | Json.num n => some (toString n)
  | Json.str s => some s
  | Json.arr elems => some (render (Json.arr elems))
  | Json.obj fields => some (render (Json.obj fields))

/-- `Poco::JSON::Object::optValue<std::string>(key, default)`: the default
when the key is absent or null, the string conversion otherwise (conversion
failures also fall back to the default). -/
def optValueString (fields : List (String × Json)) (key defaultVal : String) : String :=
  match lookupField fields key with
  | none => defaultVal
  | some v =>
    match varConvertString v with
    | none => defaultVal
    | some s => s

/-- `Poco::JSON::Object::getValue<std::string>(key)`: `none` models the throw
on a missing key or a failed conversion. -/
def getValueString (fields : List (String × Json)) (key : String) : Option String :=
  match lookupField fields key with
  | none => none
  | some v => varConvertString v

/-- `Poco::JSON::Object::getObject(key)`: the field's object, `none` when the
key is absent or not an object (a null `Object::Ptr`, whose dereference in the
caller throws `NullPointerException`). -/
def getObjectFields (fields : List (String × Json)) (key : String) :
    Option (List (String × Json)) :=
  match lookupField fields key with
  | some (Json.obj fs) => some fs
  | _ => none

/-- The envelope kinds of `enum class LambdaRequestContext`. -/
inductive LambdaRequestContext where
  | DIRECT
  | API_GW_REST
  | API_GW_HTTP
deriving DecidableEq

/-- The step `parser.parse(payload).extract<Poco::JSON::Object::Ptr>()`:
`jparse` is the external JSON grammar; the extract fails (throws) when the
top-level value is not an object. Errors carry a human-readable message only. -/
def parseTop (jparse : String → Option Json) (s : String) :
    Except String (List (String × Json)) :=
  match jparse s with
  | none => Except.error "JSON parse error"
  | some (Json.obj fs) => Except.ok fs
  | some _ => Except.error "bad cast: top-level JSON value is not an object"

/-- Mapping of the `clickHouse` sub-object to `LambdaQuery`
(LambdaServer.cpp lines 1029-1039): `query` is required via `getValue`, the
other four keys are optional via `optValue` with empty-string defaults. -/
def extractClickHouse (fields : List (String × Json)) : Except String LambdaQuery :=
  match getObjectFields fields "clickHouse" with
  | none => Except.error "NullPointerException: clickHouse object is missing"
  | some ch =>
    match getValueString ch "query" with
    | none => Except.error "Not found: query"
    | some qt =>
      Except.ok ⟨qt,
        optValueString ch "outputFormat" "",
        optValueString ch "inputFormat" "",
        optValueString ch "structure" "",
        optValueString ch "data" ""⟩

/-- Body extraction for the two gateway envelopes (LambdaServer.cpp lines
1019-1027 followed by the clickHouse mapping): `body` is required; it is
base64-decoded (by the external `b64`) exactly when the string conversion of
`isBase64Encoded` equals "true"; the decoded text is re-parsed as JSON. -/
def decodeGatewayBody (jparse : String → Option Json) (b64 : String → String)
    (fields : List (String × Json)) : Except String LambdaQuery :=
  match getValueString fields "body" with
  | none => Except.error "Not found: body"
  | some body =>
    match parseTop jparse
        (if optValueString fields "isBase64Encoded" "false" = "true" then b64 body else body) with
    | Except.error e => Except.error e
    | Except.ok fields2 => extractClickHouse fields2

/-- Decoder `parseLambdaRequestPayload` (LambdaServer.cpp lines 1004-1040).
The context starts as DIRECT (set before parsing, so a malformed payload
reports DIRECT), becomes API_GW_REST when `optValue("httpMethod", "")` is
non-empty, else API_GW_HTTP when `optValue("requestContext", "")` is
non-empty; gateway envelopes go through `decodeGatewayBody`, and the
`Except.error` cases model the Poco exceptions the caller catches. -/
def parseLambdaRequestPayload (jparse : String → Option Json) (b64 : String → String)
    (payload : String) : Except String LambdaQuery × LambdaRequestContext :=
  match parseTop jparse payload with
  | Except.error e => (Except.error e, LambdaRequestContext.DIRECT)
  | Except.ok fields =>
    if optValueString fields "httpMethod" "" ≠ "" then
      (decodeGatewayBody jparse b64 fields, LambdaRequestContext.API_GW_REST)
    else if optValueString fields "requestContext" "" ≠ "" then
      (decodeGatewayBody jparse b64 fields, LambdaRequestContext.API_GW_HTTP)
    else
      (extractClickHouse fields, LambdaRequestContext.DIRECT)

/-- Envelope classification as the spec's words have it after amendment:
REST-gateway when the string conversion of `httpMethod` is non-empty, else
HTTP-gateway when that of `requestContext` is non-empty, else Direct. -/
def classifySpec (fields : List (String × Json)) : LambdaRequestContext :=
  if optValueString fields "httpMethod" "" ≠ "" then LambdaRequestContext.API_GW_REST
  else if optValueString fields "requestContext" "" ≠ "" then LambdaRequestContext.API_GW_HTTP
  else LambdaRequestContext.DIRECT

/-- Encoding of a `LambdaResult` into the response JSON object
(LambdaServer.cpp lines 1062-1071): when `error` is empty the object carries
`format` and `data`, otherwise it carries `error` alone. -/
def encodeResult (r : LambdaResult) : Json :=
  if r.error = "" then
    Json.obj [("format", Json.str r.format), ("data", Json.str r.data)]
  else
    Json.obj [("error", Json.str r.error)]

/-- Envelope wrapping (LambdaServer.cpp lines 1076-1085): for the REST
gateway the result object is wrapped in an object under the key `body`;
Direct and HTTP-gateway responses are the result object itself. -/
def wrapForContext (ctx : LambdaRequestContext) (j : Json) : Json :=
  if ctx = LambdaRequestContext.API_GW_REST then Json.obj [("body", j)] else j

/-- `aws::lambda_runtime::invocation_response`: either a success with a
payload (kept here as the JSON value that the handler stringifies) and a
content type, or a runtime-level failure with an error message and an error
type string. -/
inductive InvocationResponse where
  | success (payload : Json) (contentType : String)
  | failure (errorMessage : String) (errorType : String)

/-- `LambdaServerCommunicator::executeQuery` (LambdaCommunucator.h lines
57-71), as a function of the outcomes the two channel operations return: the
result of the push of the query and, when that succeeded, the result of the
blocking pop of the response (`none` models a pop that failed because the
queue was finished).  The function yields a result exactly when both
operations succeeded. -/
def communicatorExecuteQuery (pushOutcome : Bool) (popOutcome : Option LambdaResult) :
    Option LambdaResult :=
  if pushOutcome then
    match popOutcome with
    | some r => some r
    | none => none
  else none

/-- Dispatcher `lambdaHandler` (LambdaServer.cpp lines 1042-1093),
parameterized by the parse and base64 oracles and by the communicator's
`executeQuery` operation.  Besides the response it returns the list of
queries handed to `executeQueryOp`, recording whether the worker was touched
(the C++ function calls `communicator.executeQuery` exactly on the queries of
that list). -/
def lambdaHandler (jparse : String → Option Json) (b64 : String → String)
    (executeQueryOp : LambdaQuery → Option LambdaResult) (payload : String) :
    InvocationResponse × List LambdaQuery :=
  match (parseLambdaRequestPayload jparse b64 payload).1 with
  | Except.error e =>
    (InvocationResponse.success
      (wrapForContext (parseLambdaRequestPayload jparse b64 payload).2
        (encodeResult (LambdaResult.mkError ("Failed to parse lambda input JSON: " ++ e))))
      "application/json", [])
  | Except.ok q =>
    match executeQueryOp q with
    | some r =>
      (InvocationResponse.success
        (wrapForContext (parseLambdaRequestPayload jparse b64 payload).2 (encodeResult r))
        "application/json", [q])
    | none =>
      (InvocationResponse.failure "ClickHouse lambda server disconnected" "FAILURE", [q])

/-- External table record, from `LambdaTable` (LambdaTable.cpp lines 9-25):
the constructor stores the name also as `file`, keeps the format and the
inline data, and derives the columns from the structure text (the parsing
itself, `parseStructureFromStructureField`, is BaseExternalTable code outside
this repository slice; the text is kept verbatim here). -/
structure LambdaTable where
  file : String
  name : String
  structureText : String
  format : String
  data : String
deriving DecidableEq

/-- The `LambdaTable` the worker constructs for a query with inline data
(LambdaServer.cpp lines 496-497): fixed name "table", with the query's
structure, input format and data. -/
def lambdaTableOf (q : LambdaQuery) : LambdaTable :=
  ⟨"table", "table", q.input_structure, q.input_format, q.input_data⟩

/-- What `initOutputFormat` reads off the parsed query: whether an
`INTO OUTFILE` clause is present and the identifier of a `FORMAT` clause if
any.  A query that is not an `ASTQueryWithOutput` is `⟨false, none⟩`. -/
structure ParsedQuery where
  hasOutFile : Bool
  formatClause : Option String
deriving DecidableEq

/-- `LambdaServer::initOutputFormat` (LambdaServer.cpp lines 517-549),
restricted to the choice of the output format name: an `INTO OUTFILE` clause
is rejected; a `FORMAT` clause overrides the current format unless a vertical
output suffix was also given (then the engine's format-conflict error); a
vertical suffix alone forces "Vertical"; otherwise the current format stands.
Errors model the exceptions thrown there. -/
def initOutputFormat (hasVerticalSuffix : Bool) (pq : ParsedQuery) (current : String) :
    Except String String :=
  if pq.hasOutFile then
    Except.error "OUTFILE file is not supported in AWS lambda queries"
  else
    match pq.formatClause with
    | some clauseName =>
      if hasVerticalSuffix then Except.error "Output format already specified"
      else Except.ok clauseName
    | none => Except.ok (if hasVerticalSuffix then "Vertical" else current)

/-- The embedded engine as the worker sees it: a parser yielding the output
clauses of the query (or a parse error) and an executor that, given the query
text and the chosen output format, yields the formatted output bytes or an
error message.  Both stand for ClientBase/engine code outside the lambda
adapter. -/
structure Engine where
  parseQuery : String → Except String ParsedQuery
  execute : String → String → Except String String

/-- Container-level state of the worker: the configured default output format
(`format` member, set in processConfig), the vertical-output flag ClientBase
derives from the query text, and the rendering `getExceptionMessage` applies
to an exception before it is pushed as a `Result`. -/
structure WorkerConfig where
  defaultFormat : String
  hasVerticalSuffix : Bool
  wrapExc : String → String

/-- The format selection of the loop body (LambdaServer.cpp line 500):
`Query.output_format` when non-empty, else the container default. -/
def chooseFmt (cfg : WorkerConfig) (q : LambdaQuery) : String :=
  if q.output_format ≠ "" then q.output_format else cfg.defaultFormat

/-- One `processQueryText` call as the loop observes it: parse, choose the
output format through `initOutputFormat`, execute; the success value is the
final format (which a `FORMAT` clause may have overridden) and the output
data, an error is the exception's message. -/
def processQueryOnce (eng : Engine) (hasVerticalSuffix : Bool) (currentFormat : String)
    (queryText : String) : Except String (String × String) :=
  match eng.parseQuery queryText with
  | Except.error e => Except.error e
  | Except.ok pq =>
    match initOutputFormat hasVerticalSuffix pq currentFormat with
    | Except.error e => Except.error e
    | Except.ok fmt =>
      match eng.execute queryText fmt with
      | Except.error e => Except.error e
      | Except.ok outData => Except.ok (fmt, outData)

/-- The external-table list after the emplacement step of the loop body
(LambdaServer.cpp lines 494-498): a `LambdaTable` named "table" is appended
exactly when the query carries inline data. -/
def workerTables (tables : List LambdaTable) (q : LambdaQuery) : List LambdaTable :=
  if q.input_data ≠ "" then tables ++ [lambdaTableOf q] else tables

/-- The result the loop body hands to `pushResponse` for a popped query:
`LambdaResult(current_output_format, query_response)` on success,
`LambdaResult(getExceptionMessage(e, ...))` when processing throws. -/
def expectedResult (cfg : WorkerConfig) (eng : Engine) (q : LambdaQuery) : LambdaResult :=
  match processQueryOnce eng cfg.hasVerticalSuffix (chooseFmt cfg q) q.query_text with
  | Except.ok fd => LambdaResult.mkSuccess fd.1 fd.2
  | Except.error e => LambdaResult.mkError (cfg.wrapExc e)

/-- Processing of a query succeeds (no exception inside the try block). -/
def processedOk (cfg : WorkerConfig) (eng : Engine) (q : LambdaQuery) : Prop :=
  ∃ fd, processQueryOnce eng cfg.hasVerticalSuffix (chooseFmt cfg q) q.query_text = Except.ok fd

/-- Observable record of one loop iteration (one successfully popped query):
the query, the external-table list in force while it was processed, the
result handed to `pushResponse`, that push's outcome, and whether
`external_tables.clear()` ran afterwards. -/
structure WorkerIter where
  query : LambdaQuery
  tablesDuring : List LambdaTable
  result : LambdaResult
  pushOk : Bool
  clearedAfter : Bool
deriving DecidableEq

/-- `LambdaServer::runQueryLoop` (LambdaServer.cpp lines 481-515) as a
function of the schedule of channel outcomes: `pops` lists the successive
values `popQuery()` returns (a `none`, or the schedule running out, is the
failed pop of a finished queue) and `pushOutcomes` the successive boolean
results of `pushResponse` (an exhausted schedule answers `false`, a finished
queue).  The value is the loop's iteration trace.  Mirrored control flow: a
failed pop breaks; on success, a table is emplaced for inline data, the
format is chosen, the query is processed; a success result is pushed and a
failed push breaks *before* the clear; an exception is pushed as an error
result with the push outcome ignored; then the table list is cleared and the
loop continues. -/
def runQueryLoop (cfg : WorkerConfig) (eng : Engine) :
    List (Option LambdaQuery) → List Bool → List LambdaTable → List WorkerIter
  | [], _, _ => []
  | none :: _, _, _ => []
  | some q :: restPops, pushOutcomes, tables =>
    match processQueryOnce eng cfg.hasVerticalSuffix (chooseFmt cfg q) q.query_text with
    | Except.ok fd =>
      if pushOutcomes.headD false then
        ⟨q, workerTables tables q, LambdaResult.mkSuccess fd.1 fd.2, true, true⟩ ::
          runQueryLoop cfg eng restPops pushOutcomes.tail []
      else
        [⟨q, workerTables tables q, LambdaResult.mkSuccess fd.1 fd.2, false, false⟩]
    | Except.error e =>
      ⟨q, workerTables tables q, LambdaResult.mkError (cfg.wrapExc e),
          pushOutcomes.headD false, true⟩ ::
        runQueryLoop cfg eng restPops pushOutcomes.tail []

/-- The container default output format (processConfig line 622):
`output-format` config if set, else `format` config, else "TSV" (the server
is not interactive). -/
def containerDefaultFormat (outputFormatOption formatOption : Option String) : String :=
  outputFormatOption.getD (formatOption.getD "TSV")

/-- Concrete worker configuration whose query carries the vertical-output
suffix (a trailing backslash-G in the query text). -/
def cfgVertT : WorkerConfig := ⟨"TSV", true, fun s => s⟩

/-- The output format of a successfully executed query as the amended
precedence words it: a FORMAT clause first (such a query only succeeds
without the vertical suffix); else "Vertical" when the vertical-output
suffix is present; else a non-empty `Query.output_format`; else the
container default. -/
def fmtSpecFull (cfg : WorkerConfig) (q : LambdaQuery) (pq : ParsedQuery) : String :=
  match pq.formatClause with
  | some clauseName => clauseName
  | none => if cfg.hasVerticalSuffix then "Vertical" else chooseFmt cfg q

/-- Substring containment on strings, via infixes of the character lists. -/
def strContains (s sub : String) : Prop :=
  List.IsInfix sub.data s.data

/-!
Concrete instances used by witnesses and counterexamples.
-/

/-- Concrete worker configuration used by witnesses and counterexamples: TSV
default format, no vertical-output suffix, identity exception rendering. -/
def cfgT : WorkerConfig := ⟨"TSV", false, fun s => s⟩

/-- Concrete engine whose queries parse without output clauses and produce
one TSV row. -/
def engOkT : Engine := ⟨fun _ => Except.ok ⟨false, none⟩, fun _ _ => Except.ok "1\n"⟩

/-- Concrete engine whose execution always throws. -/
def engErrT : Engine := ⟨fun _ => Except.ok ⟨false, none⟩, fun _ _ => Except.error "boom"⟩

/-- Concrete engine whose parser sees a `FORMAT JSON` clause. -/
def engFmtT : Engine := ⟨fun _ => Except.ok ⟨false, some "JSON"⟩, fun _ _ => Except.ok "rows"⟩

/-- Concrete engine whose parser sees an `INTO OUTFILE` clause. -/
def engFileT : Engine := ⟨fun _ => Except.ok ⟨true, none⟩, fun _ _ => Except.ok ""⟩

/-- Concrete engine whose execution succeeds with zero output bytes (as a
SELECT matching no rows produces under TSV). -/
def engEmptyT : Engine := ⟨fun _ => Except.ok ⟨false, none⟩, fun _ _ => Except.ok ""⟩

/-!
Helper lemmas shared by the claim theorems.
-/

theorem string_append_ne_empty_left (a b : String) (ha : a ≠ "") : a ++ b ≠ "" := by
  intro h
  apply ha
  have hd : a.data ++ b.data = ([] : List Char) := by
    rw [← String.data_append, h]
  have hnil : a.data = [] := (List.append_eq_nil.mp hd).1
  cases a with
  | mk d =>
    simp at hnil
    subst hnil
    rfl

/-!
Helper lemmas about the worker loop: unfolding equations for `runQueryLoop`
and invariants of every iteration of a trace.
-/

theorem runQueryLoop_cons_ok_true (cfg : WorkerConfig) (eng : Engine) (q : LambdaQuery)
    (rest : List (Option LambdaQuery)) (po : List Bool) (t : List LambdaTable)
    (fd : String × String)
    (hp : processQueryOnce eng cfg.hasVerticalSuffix (chooseFmt cfg q) q.query_text =
      Except.ok fd)
    (hpo : po.headD false = true) :
    runQueryLoop cfg eng (some q :: rest) po t =
      ⟨q, workerTables t q, LambdaResult.mkSuccess fd.1 fd.2, true, true⟩ ::
        runQueryLoop cfg eng rest po.tail [] := by
  rw [runQueryLoop, hp, hpo]
  simp

theorem runQueryLoop_cons_ok_false (cfg : WorkerConfig) (eng : Engine) (q : LambdaQuery)
    (rest : List (Option LambdaQuery)) (po : List Bool) (t : List LambdaTable)
    (fd : String × String)
    (hp : processQueryOnce eng cfg.hasVerticalSuffix (chooseFmt cfg q) q.query_text =
      Except.ok fd)
    (hpo : po.headD false = false) :
    runQueryLoop cfg eng (some q :: rest) po t =
      [⟨q, workerTables t q, LambdaResult.mkSuccess fd.1 fd.2, false, false⟩] := by
  rw [runQueryLoop, hp, hpo]
  simp

theorem runQueryLoop_cons_error (cfg : WorkerConfig) (eng : Engine) (q : LambdaQuery)
    (rest : List (Option LambdaQuery)) (po : List Bool) (t : List LambdaTable) (e : String)
    (hp : processQueryOnce eng cfg.hasVerticalSuffix (chooseFmt cfg q) q.query_text =
      Except.error e) :
    runQueryLoop cfg eng (some q :: rest) po t =
      ⟨q, workerTables t q, LambdaResult.mkError (cfg.wrapExc e), po.headD false, true⟩ ::
        runQueryLoop cfg eng rest po.tail [] := by
  rw [runQueryLoop, hp]

theorem mem_runQueryLoop_result (cfg : WorkerConfig) (eng : Engine) :
    ∀ (pops : List (Option LambdaQuery)) (pushOutcomes : List Bool)
      (tables : List LambdaTable) (it : WorkerIter),
      it ∈ runQueryLoop cfg eng pops pushOutcomes tables →
      it.result = expectedResult cfg eng it.query := by
  intro pops
  induction pops with
  | nil => intro po t it h; simp [runQueryLoop] at h
  | cons hd tl ih =>
    intro po t it h
    cases hd with
    | none => simp [runQueryLoop] at h
    | some q =>
      cases hp : processQueryOnce eng cfg.hasVerticalSuffix (chooseFmt cfg q) q.query_text with
      | ok fd =>
        cases hpo : po.headD false
        · rw [runQueryLoop_cons_ok_false cfg eng q tl po t fd hp hpo] at h
          simp at h
          subst h
          simp [expectedResult, hp]
        · rw [runQueryLoop_cons_ok_true cfg eng q tl po t fd hp hpo] at h
          simp at h
          rcases h with h | h
          · subst h
            simp [expectedResult, hp]
          · exact ih po.tail [] it h
      | error e =>
        rw [runQueryLoop_cons_error cfg eng q tl po t e hp] at h
        simp at h
        rcases h with h | h
        · subst h
          simp [expectedResult, hp]
        · exact ih po.tail [] it h

theorem mem_runQueryLoop_tables (cfg : WorkerConfig) (eng : Engine) :
    ∀ (pops : List (Option LambdaQuery)) (pushOutcomes : List Bool) (it : WorkerIter),
      it ∈ runQueryLoop cfg eng pops pushOutcomes [] →
      it.tablesDuring = workerTables [] it.query := by
  intro pops
  induction pops with
  | nil => intro po it h; simp [runQueryLoop] at h
  | cons hd tl ih =>
    intro po it h
    cases hd with
    | none => simp [runQueryLoop] at h
    | some q =>
      cases hp : processQueryOnce eng cfg.hasVerticalSuffix (chooseFmt cfg q) q.query_text with
      | ok fd =>
        cases hpo : po.headD false
        · rw [runQueryLoop_cons_ok_false cfg eng q tl po [] fd hp hpo] at h
          simp at h
          subst h
          rfl
        · rw [runQueryLoop_cons_ok_true cfg eng q tl po [] fd hp hpo] at h
          simp at h
          rcases h with h | h
          · subst h; rfl
          · exact ih po.tail it h
      | error e =>
        rw [runQueryLoop_cons_error cfg eng q tl po [] e hp] at h
        simp at h
        rcases h with h | h
        · subst h; rfl
        · exact ih po.tail it h

theorem mem_runQueryLoop_pushFail_last (cfg : WorkerConfig) (eng : Engine) :
    ∀ (pops : List (Option LambdaQuery)) (pushOutcomes : List Bool)
      (tables : List LambdaTable) (it : WorkerIter),
      it ∈ runQueryLoop cfg eng pops pushOutcomes tables →
      it.pushOk = false → processedOk cfg eng it.query →
      (runQueryLoop cfg eng pops pushOutcomes tables).getLast? = some it := by
  intro pops
  induction pops with
  | nil => intro po t it h _ _; simp [runQueryLoop] at h
  | cons hd tl ih =>
    intro po t it h hpush hok
    cases hd with
    | none => simp [runQueryLoop] at h
    | some q =>
      cases hp : processQueryOnce eng cfg.hasVerticalSuffix (chooseFmt cfg q) q.query_text with
      | ok fd =>
        cases hpo : po.headD false
        · rw [runQueryLoop_cons_ok_false cfg eng q tl po t fd hp hpo] at h ⊢
          simp at h ⊢
          exact h.symm
        · rw [runQueryLoop_cons_ok_true cfg eng q tl po t fd hp hpo] at h ⊢
          simp at h
          rcases h with h | h
          · subst h; simp at hpush
          · have hrec := ih po.tail [] it h hpush hok
            have hne : runQueryLoop cfg eng tl po.tail [] ≠ [] := List.ne_nil_of_mem h
            obtain ⟨b, bt, hbt⟩ := List.exists_cons_of_ne_nil hne
            rw [hbt] at hrec ⊢
            simp only [List.getLast?_cons_cons]
            exact hrec
      | error e =>
        rw [runQueryLoop_cons_error cfg eng q tl po t e hp] at h ⊢
        simp at h
        rcases h with h | h
        · obtain ⟨fd, hfd⟩ := hok
          rw [h] at hfd
          simp at hfd
          rw [hfd] at hp
          cases hp
        · have hrec := ih po.tail [] it h hpush hok
          have hne : runQueryLoop cfg eng tl po.tail [] ≠ [] := List.ne_nil_of_mem h
          obtain ⟨b, bt, hbt⟩ := List.exists_cons_of_ne_nil hne
          rw [hbt] at hrec ⊢
          simp only [List.getLast?_cons_cons]
          exact hrec

theorem mem_runQueryLoop_uncleared (cfg : WorkerConfig) (eng : Engine) :
    ∀ (pops : List (Option LambdaQuery)) (pushOutcomes : List Bool)
      (tables : List LambdaTable) (it : WorkerIter),
      it ∈ runQueryLoop cfg eng pops pushOutcomes tables →
      it.clearedAfter = false →
      it.pushOk = false ∧ processedOk cfg eng it.query ∧
        (runQueryLoop cfg eng pops pushOutcomes tables).getLast? = some it := by
  intro pops
  induction pops with
  | nil => intro po t it h _; simp [runQueryLoop] at h
  | cons hd tl ih =>
    intro po t it h hclear
    cases hd with
    | none => simp [runQueryLoop] at h
    | some q =>
      cases hp : processQueryOnce eng cfg.hasVerticalSuffix (chooseFmt cfg q) q.query_text with
      | ok fd =>
        cases hpo : po.headD false
        · rw [runQueryLoop_cons_ok_false cfg eng q tl po t fd hp hpo] at h ⊢
          simp at h ⊢
          subst h
          exact ⟨rfl, ⟨fd, hp⟩, rfl⟩
        · rw [runQueryLoop_cons_ok_true cfg eng q tl po t fd hp hpo] at h ⊢
          simp at h
          rcases h with h | h
          · subst h; simp at hclear
          · have hrec := ih po.tail [] it h hclear
            refine ⟨hrec.1, hrec.2.1, ?_⟩
            have hne : runQueryLoop cfg eng tl po.tail [] ≠ [] := List.ne_nil_of_mem h
            obtain ⟨b, bt, hbt⟩ := List.exists_cons_of_ne_nil hne
            have hlast := hrec.2.2
            rw [hbt] at hlast ⊢
            simp only [List.getLast?_cons_cons]
            exact hlast
      | error e =>
        rw [runQueryLoop_cons_error cfg eng q tl po t e hp] at h ⊢
        simp at h
        rcases h with h | h
        · subst h; simp at hclear
        · have hrec := ih po.tail [] it h hclear
          refine ⟨hrec.1, hrec.2.1, ?_⟩
          have hne : runQueryLoop cfg eng tl po.tail [] ≠ [] := List.ne_nil_of_mem h
          obtain ⟨b, bt, hbt⟩ := List.exists_cons_of_ne_nil hne
          have hlast := hrec.2.2
          rw [hbt] at hlast ⊢
          simp only [List.getLast?_cons_cons]
          exact hlast

/-!
The claims.  Each claim of CLAIMS.json has exactly one theorem here; a
corrected claim also has a closed counterexample refuting its original
wording at a concrete input, and theorems with hypotheses have closed
witnesses instantiating them.
-/

/-- Claim C1 (amended): for every Query the worker successfully pops, it
hands exactly one Result to `pushResponse` — a format/data result when
processing succeeds, an error result when it throws; the loop exits when the
pop fails; when the push of a *success* result fails the loop exits (that
iteration is the trace's last); but a failed push of an *error* result is
ignored and the loop continues with the next pop. -/
theorem claim_C1 (cfg : WorkerConfig) (eng : Engine) (pops : List (Option LambdaQuery))
    (pushOutcomes : List Bool) :
    (∀ it ∈ runQueryLoop cfg eng pops pushOutcomes [],
        it.result = expectedResult cfg eng it.query)
    ∧ (∀ (po : List Bool) (t : List LambdaTable),
        runQueryLoop cfg eng (none :: pops) po t = [])
    ∧ (∀ it ∈ runQueryLoop cfg eng pops pushOutcomes [],
        it.pushOk = false → processedOk cfg eng it.query →
        (runQueryLoop cfg eng pops pushOutcomes []).getLast? = some it)
    ∧ (∀ (q : LambdaQuery) (e : String) (po : List Bool) (t : List LambdaTable),
        processQueryOnce eng cfg.hasVerticalSuffix (chooseFmt cfg q) q.query_text =
          Except.error e →
        runQueryLoop cfg eng (some q :: pops) po t =
          ⟨q, workerTables t q, LambdaResult.mkError (cfg.wrapExc e), po.headD false, true⟩ ::
            runQueryLoop cfg eng pops po.tail []) :=
  ⟨fun it h => mem_runQueryLoop_result cfg eng pops pushOutcomes [] it h,
   fun _ _ => rfl,
   fun it h hpush hok =>
     mem_runQueryLoop_pushFail_last cfg eng pops pushOutcomes [] it h hpush hok,
   fun q e po t hp => runQueryLoop_cons_error cfg eng q pops po t e hp⟩

/-- Counterexample to C1 as stated: with the response queue closed, the push
of the first (error) Result fails, yet the worker performs a second pop and a
second full iteration — the loop does not exit when a response push fails. -/
theorem claim_C1_counterexample :
    ((runQueryLoop cfgT engErrT
        [some ⟨"SELECT 1", "", "", "", ""⟩, some ⟨"SELECT 2", "", "", "", ""⟩]
        [false, false] []).map fun it => (it.pushOk, it.result.error)) =
      [(false, "boom"), (false, "boom")] := by decide

/-- Witness for C1 at a concrete schedule: one failing query whose error
result is the one the loop body computed for it. -/
theorem claim_C1_witness :
    (⟨⟨"SELECT 1", "", "", "", ""⟩, [], LambdaResult.mkError "boom", false, true⟩ : WorkerIter) ∈
      runQueryLoop cfgT engErrT [some ⟨"SELECT 1", "", "", "", ""⟩] [false] []
    ∧ (⟨⟨"SELECT 1", "", "", "", ""⟩, [], LambdaResult.mkError "boom", false, true⟩ :
        WorkerIter).result =
      expectedResult cfgT engErrT ⟨"SELECT 1", "", "", "", ""⟩ :=
  ⟨by decide,
   (claim_C1 cfgT engErrT [some ⟨"SELECT 1", "", "", "", ""⟩] [false]).1
     ⟨⟨"SELECT 1", "", "", "", ""⟩, [], LambdaResult.mkError "boom", false, true⟩ (by decide)⟩

/-- Claim C2 (amended): the envelope is classified by the non-emptiness of
the string conversions of `httpMethod` and `requestContext` — REST-gateway
when `httpMethod` converts to a non-empty string, else HTTP-gateway when
`requestContext` does, else Direct (a field that is absent, null, or whose
value converts to the empty string counts as absent).  For the gateway kinds
the Query is parsed from the `body` field, base64-decoded exactly when the
string conversion of `isBase64Encoded` equals "true"; for Direct the
`clickHouse` object is read from the top level. -/
theorem claim_C2 (jparse : String → Option Json) (b64 : String → String) (payload : String)
    (fields : List (String × Json))
    (htop : parseTop jparse payload = Except.ok fields) :
    (parseLambdaRequestPayload jparse b64 payload).2 = classifySpec fields
    ∧ (classifySpec fields = LambdaRequestContext.DIRECT →
        (parseLambdaRequestPayload jparse b64 payload).1 = extractClickHouse fields)
    ∧ (classifySpec fields ≠ LambdaRequestContext.DIRECT →
        (parseLambdaRequestPayload jparse b64 payload).1 = decodeGatewayBody jparse b64 fields)
    ∧ (∀ body, getValueString fields "body" = some body →
        decodeGatewayBody jparse b64 fields =
          (match parseTop jparse
              (if optValueString fields "isBase64Encoded" "false" = "true" then b64 body
               else body) with
           | Except.error e => Except.error e
           | Except.ok fields2 => extractClickHouse fields2)) := by
  refine ⟨?_, ?_, ?_, ?_⟩
  · rw [parseLambdaRequestPayload, htop, classifySpec]
    by_cases h1 : optValueString fields "httpMethod" "" ≠ ""
    · simp [h1]
    · by_cases h2 : optValueString fields "requestContext" "" ≠ ""
      · simp [h1, h2]
      · simp [h1, h2]
  · intro hdir
    rw [classifySpec] at hdir
    rw [parseLambdaRequestPayload, htop]
    by_cases h1 : optValueString fields "httpMethod" "" ≠ ""
    · simp [h1] at hdir
    · by_cases h2 : optValueString fields "requestContext" "" ≠ ""
      · simp [h1, h2] at hdir
      · simp [h1, h2]
  · intro hgw
    rw [classifySpec] at hgw
    rw [parseLambdaRequestPayload, htop]
    by_cases h1 : optValueString fields "httpMethod" "" ≠ ""
    · simp [h1]
    · by_cases h2 : optValueString fields "requestContext" "" ≠ ""
      · simp [h1, h2]
      · simp [h1, h2] at hgw
  · intro body hb
    rw [decodeGatewayBody, hb]

/-- Counterexample to C2 as stated: a payload whose top-level object contains
an `httpMethod` field (with an empty-string value) together with a top-level
`clickHouse` object is classified Direct, not REST-gateway, and its Query is
read from the top level. -/
theorem claim_C2_counterexample :
    (parseLambdaRequestPayload
        (fun s => if s = "payload" then
          some (Json.obj [("httpMethod", Json.str ""),
            ("clickHouse", Json.obj [("query", Json.str "SELECT 1")])]) else none)
        (fun s => s) "payload").2 = LambdaRequestContext.DIRECT
    ∧ (lookupField [("httpMethod", Json.str ""),
          ("clickHouse", Json.obj [("query", Json.str "SELECT 1")])] "httpMethod").isSome = true
    ∧ LambdaRequestContext.DIRECT ≠ LambdaRequestContext.API_GW_REST
    ∧ (parseLambdaRequestPayload
        (fun s => if s = "payload" then
          some (Json.obj [("httpMethod", Json.str ""),
            ("clickHouse", Json.obj [("query", Json.str "SELECT 1")])]) else none)
        (fun s => s) "payload").1 = Except.ok ⟨"SELECT 1", "", "", "", ""⟩ := by
  refine ⟨by decide, by decide, by decide, by rfl⟩

/-- Witness for C2: a concrete REST-gateway envelope with a base64-encoded
body goes through the amended classification. -/
theorem claim_C2_witness :
    parseTop
      (fun s =>
        if s = "payload" then
          some (Json.obj [("httpMethod", Json.str "POST"), ("body", Json.str "ENC"),
            ("isBase64Encoded", Json.str "true")])
        else if s = "DEC" then
          some (Json.obj [("clickHouse", Json.obj [("query", Json.str "SELECT 1")])])
        else none)
      "payload" =
      Except.ok [("httpMethod", Json.str "POST"), ("body", Json.str "ENC"),
        ("isBase64Encoded", Json.str "true")]
    ∧ (parseLambdaRequestPayload
        (fun s =>
          if s = "payload" then
            some (Json.obj [("httpMethod", Json.str "POST"), ("body", Json.str "ENC"),
              ("isBase64Encoded", Json.str "true")])
          else if s = "DEC" then
            some (Json.obj [("clickHouse", Json.obj [("query", Json.str "SELECT 1")])])
          else none)
        (fun s => if s = "ENC" then "DEC" else s) "payload").2 =
      classifySpec [("httpMethod", Json.str "POST"), ("body", Json.str "ENC"),
        ("isBase64Encoded", Json.str "true")] :=
  ⟨rfl,
   (claim_C2
      (fun s =>
        if s = "payload" then
          some (Json.obj [("httpMethod", Json.str "POST"), ("body", Json.str "ENC"),
            ("isBase64Encoded", Json.str "true")])
        else if s = "DEC" then
          some (Json.obj [("clickHouse", Json.obj [("query", Json.str "SELECT 1")])])
        else none)
      (fun s => if s = "ENC" then "DEC" else s) "payload"
      [("httpMethod", Json.str "POST"), ("body", Json.str "ENC"),
        ("isBase64Encoded", Json.str "true")] rfl).1⟩

/-- Claim C3: whenever the invocation produces a `Result` (decode error,
engine success or engine error), the handler returns a success response whose
payload is the encoded result wrapped according to the envelope kind observed
at decode time — wrapped in an object under `body` for REST-gateway, raw for
Direct and HTTP-gateway — always with content type application/json. -/
theorem claim_C3 (jparse : String → Option Json) (b64 : String → String)
    (exec : LambdaQuery → Option LambdaResult) (payload : String) :
    (∀ e, (parseLambdaRequestPayload jparse b64 payload).1 = Except.error e →
      (lambdaHandler jparse b64 exec payload).1 =
        InvocationResponse.success
          (wrapForContext (parseLambdaRequestPayload jparse b64 payload).2
            (encodeResult (LambdaResult.mkError ("Failed to parse lambda input JSON: " ++ e))))
          "application/json")
    ∧ (∀ q r, (parseLambdaRequestPayload jparse b64 payload).1 = Except.ok q →
        exec q = some r →
        (lambdaHandler jparse b64 exec payload).1 =
          InvocationResponse.success
            (wrapForContext (parseLambdaRequestPayload jparse b64 payload).2 (encodeResult r))
            "application/json")
    ∧ (∀ j, wrapForContext LambdaRequestContext.API_GW_REST j = Json.obj [("body", j)])
    ∧ (∀ j, wrapForContext LambdaRequestContext.API_GW_HTTP j = j)
    ∧ (∀ j, wrapForContext LambdaRequestContext.DIRECT j = j) := by
  refine ⟨?_, ?_, fun j => rfl, fun j => rfl, fun j => rfl⟩
  · intro e he
    rw [lambdaHandler, he]
  · intro q r hq hr
    rw [lambdaHandler, hq]
    simp [hr]

/-- Claim C4 (amended): for every successfully executed query of a worker
trace, the `format` of the returned Result follows the precedence: a FORMAT
clause embedded in the query text first; else "Vertical" when the query
carries the vertical-output suffix, which overrides even a non-empty
`Query.output_format`; else `Query.output_format` when non-empty; else the
container default ("TSV" when no configuration overrides it). -/
theorem claim_C4 (cfg : WorkerConfig) (eng : Engine) (pops : List (Option LambdaQuery))
    (pushOutcomes : List Bool) (it : WorkerIter) (pq : ParsedQuery) (f d : String)
    (hmem : it ∈ runQueryLoop cfg eng pops pushOutcomes [])
    (hparse : eng.parseQuery it.query.query_text = Except.ok pq)
    (hproc : processQueryOnce eng cfg.hasVerticalSuffix (chooseFmt cfg it.query)
        it.query.query_text = Except.ok (f, d)) :
    it.result = LambdaResult.mkSuccess f d
    ∧ f = fmtSpecFull cfg it.query pq
    ∧ containerDefaultFormat none none = "TSV" := by
  have h1 := mem_runQueryLoop_result cfg eng pops pushOutcomes [] it hmem
  rw [expectedResult, hproc] at h1
  refine ⟨h1, ?_, rfl⟩
  rw [processQueryOnce, hparse] at hproc
  cases hio : initOutputFormat cfg.hasVerticalSuffix pq (chooseFmt cfg it.query) with
  | error e => simp [hio] at hproc
  | ok fmt =>
    cases hex : eng.execute it.query.query_text fmt with
    | error e => simp [hio, hex] at hproc
    | ok dd =>
      simp [hio, hex] at hproc
      rw [← hproc.1]
      cases hof : pq.hasOutFile with
      | true => simp [initOutputFormat, hof] at hio
      | false =>
        cases hc : pq.formatClause with
        | some clauseName =>
          cases hv : cfg.hasVerticalSuffix with
          | true => simp [initOutputFormat, hof, hc, hv] at hio
          | false =>
            simp [initOutputFormat, hof, hc, hv] at hio
            simp [fmtSpecFull, hc, hio]
        | none =>
          simp [initOutputFormat, hof, hc] at hio
          simp [fmtSpecFull, hc, hio]

/-- Counterexample to C4 as stated: a successfully executed query with the
vertical-output suffix and no FORMAT clause returns format "Vertical",
overriding its non-empty output_format "CSV" — the claimed precedence
(output_format next after a FORMAT clause) fails. -/
theorem claim_C4_counterexample :
    ((runQueryLoop cfgVertT engOkT [some ⟨"SELECT 1", "CSV", "", "", ""⟩] [true] []).map
        fun it => it.result) = [LambdaResult.mkSuccess "Vertical" "1\n"]
    ∧ (⟨"SELECT 1", "CSV", "", "", ""⟩ : LambdaQuery).output_format = "CSV"
    ∧ engOkT.parseQuery "SELECT 1" = Except.ok ⟨false, none⟩
    ∧ "Vertical" ≠ "CSV" :=
  ⟨by decide, rfl, rfl, by decide⟩

/-- Witness for C4: a query with output_format "CSV" but a FORMAT JSON
clause in the text; the pushed result carries format "JSON". -/
theorem claim_C4_witness :
    (⟨⟨"SELECT 1 FORMAT JSON", "CSV", "", "", ""⟩, [],
        LambdaResult.mkSuccess "JSON" "rows", true, true⟩ : WorkerIter) ∈
      runQueryLoop cfgT engFmtT [some ⟨"SELECT 1 FORMAT JSON", "CSV", "", "", ""⟩] [true] []
    ∧ (⟨⟨"SELECT 1 FORMAT JSON", "CSV", "", "", ""⟩, [],
        LambdaResult.mkSuccess "JSON" "rows", true, true⟩ : WorkerIter).result =
      LambdaResult.mkSuccess "JSON" "rows"
    ∧ "JSON" = fmtSpecFull cfgT ⟨"SELECT 1 FORMAT JSON", "CSV", "", "", ""⟩
        ⟨false, some "JSON"⟩ :=
  ⟨by decide,
   (claim_C4 cfgT engFmtT [some ⟨"SELECT 1 FORMAT JSON", "CSV", "", "", ""⟩] [true]
      ⟨⟨"SELECT 1 FORMAT JSON", "CSV", "", "", ""⟩, [],
        LambdaResult.mkSuccess "JSON" "rows", true, true⟩
      ⟨false, some "JSON"⟩ "JSON" "rows" (by decide) rfl rfl).1,
   (claim_C4 cfgT engFmtT [some ⟨"SELECT 1 FORMAT JSON", "CSV", "", "", ""⟩] [true]
      ⟨⟨"SELECT 1 FORMAT JSON", "CSV", "", "", ""⟩, [],
        LambdaResult.mkSuccess "JSON" "rows", true, true⟩
      ⟨false, some "JSON"⟩ "JSON" "rows" (by decide) rfl rfl).2.1⟩

/-- Claim C5: when decoding of the request payload fails, the handler
touches no query channel (the engine is untouched), responds with an error
result object whose message is the literal prefix "Failed to parse lambda
input JSON: " followed by the parse error, wrapped per the decode-time
envelope kind. -/
theorem claim_C5 (jparse : String → Option Json) (b64 : String → String)
    (exec : LambdaQuery → Option LambdaResult) (payload : String) (e : String)
    (hdec : (parseLambdaRequestPayload jparse b64 payload).1 = Except.error e) :
    (lambdaHandler jparse b64 exec payload).2 = []
    ∧ (lambdaHandler jparse b64 exec payload).1 =
        InvocationResponse.success
          (wrapForContext (parseLambdaRequestPayload jparse b64 payload).2
            (Json.obj [("error", Json.str ("Failed to parse lambda input JSON: " ++ e))]))
          "application/json"
    ∧ List.IsPrefix ("Failed to parse lambda input JSON: ").data
        ("Failed to parse lambda input JSON: " ++ e).data := by
  refine ⟨?_, ?_, ⟨e.data, (String.data_append _ _).symm⟩⟩
  · rw [lambdaHandler, hdec]
  · rw [lambdaHandler, hdec]
    have hne : ("Failed to parse lambda input JSON: " ++ e) ≠ "" :=
      string_append_ne_empty_left _ _ (by decide)
    simp [encodeResult, LambdaResult.mkError, hne]

/-- Witness for C5: a payload that is not JSON at all produces the decode
error, and the handler forwards no query to the worker. -/
theorem claim_C5_witness :
    (parseLambdaRequestPayload (fun _ => none) (fun s => s) "not json").1 =
      Except.error "JSON parse error"
    ∧ (lambdaHandler (fun _ => none) (fun s => s)
        (fun _ => some (LambdaResult.mkSuccess "TSV" "1\n")) "not json").2 = [] :=
  ⟨rfl,
   (claim_C5 (fun _ => none) (fun s => s)
      (fun _ => some (LambdaResult.mkSuccess "TSV" "1\n")) "not json"
      "JSON parse error" rfl).1⟩

/-- Claim C6 (amended): for every Query with non-empty input_data the
iteration's external-table list holds exactly the table named "table" with
the query's structure, format and data (and is empty when input_data is
empty, so the inline data is absent before each query runs); the list is
cleared after every iteration except when the loop exits because the push of
a success result failed — in which case that iteration is the trace's last,
so no later query can observe the leftover table. -/
theorem claim_C6 (cfg : WorkerConfig) (eng : Engine) (pops : List (Option LambdaQuery))
    (pushOutcomes : List Bool) :
    (∀ it ∈ runQueryLoop cfg eng pops pushOutcomes [],
        it.tablesDuring = workerTables [] it.query)
    ∧ (∀ q : LambdaQuery, q.input_data ≠ "" →
        workerTables [] q = [lambdaTableOf q]
        ∧ (lambdaTableOf q).name = "table"
        ∧ (lambdaTableOf q).structureText = q.input_structure
        ∧ (lambdaTableOf q).format = q.input_format
        ∧ (lambdaTableOf q).data = q.input_data)
    ∧ (∀ q : LambdaQuery, q.input_data = "" → workerTables [] q = [])
    ∧ (∀ it ∈ runQueryLoop cfg eng pops pushOutcomes [],
        it.clearedAfter = false →
        it.pushOk = false ∧ processedOk cfg eng it.query ∧
          (runQueryLoop cfg eng pops pushOutcomes []).getLast? = some it) :=
  ⟨fun it h => mem_runQueryLoop_tables cfg eng pops pushOutcomes it h,
   fun q hq => ⟨by simp [workerTables, hq], rfl, rfl, rfl, rfl⟩,
   fun q hq => by simp [workerTables, hq],
   fun it h hc => mem_runQueryLoop_uncleared cfg eng pops pushOutcomes [] it h hc⟩

/-- Counterexample to C6 as stated: a success-path invocation whose response
push fails is processed without a subsequent `external_tables.clear()` — the
trace's only iteration still holds the table after the loop exits. -/
theorem claim_C6_counterexample :
    ((runQueryLoop cfgT engOkT
        [some ⟨"SELECT a FROM table", "", "CSV", "a Int64", "1,2"⟩] [false] []).map
      fun it => (it.result.error, it.pushOk, it.clearedAfter, it.tablesDuring)) =
    [("", false, false, [⟨"table", "table", "a Int64", "CSV", "1,2"⟩])] := by decide

/-- Witness for C6: a processed query with inline data whose iteration sees
exactly the table built from the query's fields. -/
theorem claim_C6_witness :
    (⟨⟨"SELECT a FROM table", "", "CSV", "a Int64", "1,2"⟩,
        [⟨"table", "table", "a Int64", "CSV", "1,2"⟩],
        LambdaResult.mkSuccess "TSV" "1\n", true, true⟩ : WorkerIter) ∈
      runQueryLoop cfgT engOkT
        [some ⟨"SELECT a FROM table", "", "CSV", "a Int64", "1,2"⟩] [true] []
    ∧ (⟨⟨"SELECT a FROM table", "", "CSV", "a Int64", "1,2"⟩,
        [⟨"table", "table", "a Int64", "CSV", "1,2"⟩],
        LambdaResult.mkSuccess "TSV" "1\n", true, true⟩ : WorkerIter).tablesDuring =
      workerTables [] ⟨"SELECT a FROM table", "", "CSV", "a Int64", "1,2"⟩ :=
  ⟨by decide,
   (claim_C6 cfgT engOkT [some ⟨"SELECT a FROM table", "", "CSV", "a Int64", "1,2"⟩] [true]).1
     ⟨⟨"SELECT a FROM table", "", "CSV", "a Int64", "1,2"⟩,
        [⟨"table", "table", "a Int64", "CSV", "1,2"⟩],
        LambdaResult.mkSuccess "TSV" "1\n", true, true⟩ (by decide)⟩

/-- Claim C7: when the channel is closed — the query push fails, or the
response pop fails after a successful push — `executeQuery` yields no result
and the handler returns the runtime-level failure response with message
"ClickHouse lambda server disconnected" and status string "FAILURE", a
response distinct from every success response (it carries no JSON body). -/
theorem claim_C7 (jparse : String → Option Json) (b64 : String → String) (payload : String)
    (q : LambdaQuery) (pushOutcome : Bool) (popOutcome : Option LambdaResult)
    (hq : (parseLambdaRequestPayload jparse b64 payload).1 = Except.ok q)
    (hfail : pushOutcome = false ∨ popOutcome = none) :
    communicatorExecuteQuery pushOutcome popOutcome = none
    ∧ (lambdaHandler jparse b64
        (fun _ => communicatorExecuteQuery pushOutcome popOutcome) payload).1 =
        InvocationResponse.failure "ClickHouse lambda server disconnected" "FAILURE"
    ∧ ∀ (j : Json) (ct : String),
        InvocationResponse.failure "ClickHouse lambda server disconnected" "FAILURE" ≠
          InvocationResponse.success j ct := by
  have hnone : communicatorExecuteQuery pushOutcome popOutcome = none := by
    rcases hfail with h | h
    · simp [communicatorExecuteQuery, h]
    · simp [communicatorExecuteQuery, h]
  refine ⟨hnone, ?_, fun j ct => by simp⟩
  rw [lambdaHandler, hq, hnone]

/-- Witness for C7: a well-formed Direct payload whose query push fails
(channel closed) yields the runtime-level failure response. -/
theorem claim_C7_witness :
    (parseLambdaRequestPayload
        (fun s => if s = "payload" then
          some (Json.obj [("clickHouse", Json.obj [("query", Json.str "SELECT 1")])]) else none)
        (fun s => s) "payload").1 = Except.ok ⟨"SELECT 1", "", "", "", ""⟩
    ∧ (lambdaHandler
        (fun s => if s = "payload" then
          some (Json.obj [("clickHouse", Json.obj [("query", Json.str "SELECT 1")])]) else none)
        (fun s => s) (fun _ => communicatorExecuteQuery false none) "payload").1 =
      InvocationResponse.failure "ClickHouse lambda server disconnected" "FAILURE" :=
  ⟨rfl,
   (claim_C7
      (fun s => if s = "payload" then
        some (Json.obj [("clickHouse", Json.obj [("query", Json.str "SELECT 1")])]) else none)
      (fun s => s) "payload" ⟨"SELECT 1", "", "", "", ""⟩ false none rfl (Or.inl rfl)).2.1⟩

/-- Claim C8: a query whose parse carries an INTO OUTFILE clause is rejected
inside initOutputFormat before any output is produced, and the invocation's
Result is an error (empty format and data) whose message contains
"OUTFILE file is not supported in AWS lambda queries". -/
theorem claim_C8 (cfg : WorkerConfig) (eng : Engine) (pops : List (Option LambdaQuery))
    (pushOutcomes : List Bool) (it : WorkerIter) (pq : ParsedQuery)
    (hmem : it ∈ runQueryLoop cfg eng pops pushOutcomes [])
    (hparse : eng.parseQuery it.query.query_text = Except.ok pq)
    (hfile : pq.hasOutFile = true)
    (hwrap : ∀ s, strContains (cfg.wrapExc s) s) :
    it.result.format = "" ∧ it.result.data = ""
    ∧ strContains it.result.error "OUTFILE file is not supported in AWS lambda queries" := by
  have hproc : processQueryOnce eng cfg.hasVerticalSuffix (chooseFmt cfg it.query)
      it.query.query_text =
      Except.error "OUTFILE file is not supported in AWS lambda queries" := by
    rw [processQueryOnce, hparse]
    simp [initOutputFormat, hfile]
  have h1 := mem_runQueryLoop_result cfg eng pops pushOutcomes [] it hmem
  rw [expectedResult, hproc] at h1
  rw [h1]
  exact ⟨rfl, rfl, hwrap _⟩

/-- Witness for C8: a concrete trace with an OUTFILE query; the error result
contains the dedicated message. -/
theorem claim_C8_witness :
    (⟨⟨"SELECT 1 INTO OUTFILE f", "", "", "", ""⟩, [],
        LambdaResult.mkError "OUTFILE file is not supported in AWS lambda queries",
        true, true⟩ : WorkerIter) ∈
      runQueryLoop cfgT engFileT [some ⟨"SELECT 1 INTO OUTFILE f", "", "", "", ""⟩] [true] []
    ∧ strContains
        (⟨⟨"SELECT 1 INTO OUTFILE f", "", "", "", ""⟩, [],
          LambdaResult.mkError "OUTFILE file is not supported in AWS lambda queries",
          true, true⟩ : WorkerIter).result.error
        "OUTFILE file is not supported in AWS lambda queries" :=
  ⟨by decide,
   (claim_C8 cfgT engFileT [some ⟨"SELECT 1 INTO OUTFILE f", "", "", "", ""⟩] [true]
      ⟨⟨"SELECT 1 INTO OUTFILE f", "", "", "", ""⟩, [],
        LambdaResult.mkError "OUTFILE file is not supported in AWS lambda queries",
        true, true⟩
      ⟨true, none⟩ (by decide) rfl rfl (fun s => ⟨[], [], by simp [cfgT]⟩)).2.2⟩

/-- Claim C9 (amended): no Result produced by the system has both `data` and
`error` non-empty, and every failure result (non-empty `error`) has empty
`format` and `data`; likewise the dispatcher's decode-error results.  A
success result may nevertheless carry an empty `data`, so "exactly one
variant populated" fails in the empty-output case. -/
theorem claim_C9 (cfg : WorkerConfig) (eng : Engine) (pops : List (Option LambdaQuery))
    (pushOutcomes : List Bool) :
    (∀ it ∈ runQueryLoop cfg eng pops pushOutcomes [],
        ¬(it.result.data ≠ "" ∧ it.result.error ≠ "")
        ∧ (it.result.error ≠ "" → it.result.format = "" ∧ it.result.data = ""))
    ∧ (∀ e : String,
        (LambdaResult.mkError ("Failed to parse lambda input JSON: " ++ e)).error ≠ ""
        ∧ (LambdaResult.mkError ("Failed to parse lambda input JSON: " ++ e)).data = ""
        ∧ (LambdaResult.mkError ("Failed to parse lambda input JSON: " ++ e)).format = "") := by
  constructor
  · intro it h
    have h1 := mem_runQueryLoop_result cfg eng pops pushOutcomes [] it h
    rw [expectedResult] at h1
    cases hp : processQueryOnce eng cfg.hasVerticalSuffix (chooseFmt cfg it.query)
        it.query.query_text with
    | ok fd =>
      rw [h1, hp]
      simp [LambdaResult.mkSuccess]
    | error e =>
      rw [h1, hp]
      simp [LambdaResult.mkError]
  · intro e
    exact ⟨string_append_ne_empty_left _ _ (by decide), rfl, rfl⟩

/-- Counterexample to C9 as stated: a query whose execution succeeds with
zero output bytes yields a Result with empty `data` and empty `error` —
neither variant is populated in the claim's sense. -/
theorem claim_C9_counterexample :
    ((runQueryLoop cfgT engEmptyT [some ⟨"SELECT 1 WHERE 0", "", "", "", ""⟩] [true] []).map
        fun it => it.result) = [⟨"TSV", "", ""⟩]
    ∧ (⟨"TSV", "", ""⟩ : LambdaResult).data = ""
    ∧ (⟨"TSV", "", ""⟩ : LambdaResult).error = "" :=
  ⟨by decide, rfl, rfl⟩

/-- Witness for C9 at a concrete trace: the error iteration of a failing
query satisfies the amended invariant. -/
theorem claim_C9_witness :
    (⟨⟨"SELECT 1", "", "", "", ""⟩, [], LambdaResult.mkError "boom", true, true⟩ : WorkerIter) ∈
      runQueryLoop cfgT engErrT [some ⟨"SELECT 1", "", "", "", ""⟩] [true] []
    ∧ (¬((⟨⟨"SELECT 1", "", "", "", ""⟩, [], LambdaResult.mkError "boom", true, true⟩ :
          WorkerIter).result.data ≠ "" ∧
        (⟨⟨"SELECT 1", "", "", "", ""⟩, [], LambdaResult.mkError "boom", true, true⟩ :
          WorkerIter).result.error ≠ "")) :=
  ⟨by decide,
   ((claim_C9 cfgT engErrT [some ⟨"SELECT 1", "", "", "", ""⟩] [true]).1
     ⟨⟨"SELECT 1", "", "", "", ""⟩, [], LambdaResult.mkError "boom", true, true⟩
     (by decide)).1⟩

/-- Claim C10: the encoder's success/failure discriminant is solely the
emptiness of the error string: the response body is the error object exactly
when `result.error` is non-empty, and otherwise is the format/data object
even when `data` or `format` is the empty string, so a default-constructed
or empty-error result is always encoded as a success object. -/
theorem claim_C10 (r : LambdaResult) :
    (encodeResult r = Json.obj [("error", Json.str r.error)] ↔ r.error ≠ "")
    ∧ (r.error = "" →
        encodeResult r = Json.obj [("format", Json.str r.format), ("data", Json.str r.data)])
    ∧ encodeResult (LambdaResult.mk "" "" "") =
        Json.obj [("format", Json.str ""), ("data", Json.str "")] := by
  refine ⟨⟨?_, ?_⟩, ?_, rfl⟩
  · intro h he
    rw [encodeResult, if_pos he] at h
    simp at h
  · intro hne
    rw [encodeResult, if_neg hne]
  · intro he
    rw [encodeResult, if_pos he]

end ChLambda
